import Mathlib

/-!
Shallow embedding of the `kalender` backend (src/server.js, third variant:
the Express + Mongoose server with Employee / Appointment / Setting models,
lines 386-696), together with spec-side definitions used to compare the
implemented behaviour with the natural-language specification.

The embedded handlers mirror the route handlers of the source:
  * `postAppointments` / `putAppointments` / `getAppointments` / `deleteAppointments`
  * `postEmployees` / `putEmployees` / `getEmployees` / `deleteEmployees`
  * `getSettings` / `postSettings`
Mongo document ids are modelled by a `nextId` counter in the server state and
`ObjectId.toString()` by `objectIdToString` (24-character lowercase hex).
Mongoose `required` validation of a `String` path rejects `null`/`undefined`
and the empty string; `required` on a `Number` path rejects only a missing
value.  `timestamps: true` is modelled by an explicit `now` argument.
Definitions whose names start with `spec` are the specification side (overlap,
holidays, effective availability); they are not part of the source.
-/

namespace Kalender

/-- One per-weekday working-hours entry, shape of the objects stored under
`dailyHours` in the source (`enabled`, `start`, `end`; `end` is a Lean keyword,
rendered as `endH`). -/
structure DailyInterval where
  enabled : Bool
  start : Int
  endH : Int
deriving DecidableEq

/-- A service entry of the settings document (`id`, `name`, `durationMinutes`). -/
structure Service where
  id : String
  name : String
  durationMinutes : Int
deriving DecidableEq

/-- A holiday interval entry (`start`, `end` date strings, `YYYY-MM-DD`);
`end` rendered as `endD`. -/
structure Holiday where
  start : String
  endD : String
deriving DecidableEq

/-- The plain settings fields, as in the source's `DEFAULT_SETTINGS` object. -/
structure SettingsData where
  calendarName : String
  dailyHours : List (String × DailyInterval)
  services : List Service
  holidays : List Holiday
deriving DecidableEq

/-- `DEFAULT_SETTINGS` from src/server.js lines 444-460, field for field. -/
def DEFAULT_SETTINGS : SettingsData :=
  { calendarName := "Team-Planungsübersicht"
    dailyHours :=
      [("So", { enabled := false, start := 9, endH := 18 }),
       ("Mo", { enabled := true, start := 9, endH := 18 }),
       ("Di", { enabled := true, start := 9, endH := 18 }),
       ("Mi", { enabled := true, start := 9, endH := 18 }),
       ("Do", { enabled := true, start := 9, endH := 18 }),
       ("Fr", { enabled := true, start := 9, endH := 18 }),
       ("Sa", { enabled := false, start := 9, endH := 18 })]
    services :=
      [{ id := "default-1", name := "Herrenhaarschnitt", durationMinutes := 30 },
       { id := "default-2", name := "Damen-Coloration", durationMinutes := 120 }]
    holidays := [] }

/-- A stored settings document (`settingsSchema`): the settings fields plus the
Mongo `_id`. -/
structure Setting where
  _id : Nat
  calendarName : String
  dailyHours : List (String × DailyInterval)
  services : List Service
  holidays : List Holiday
deriving DecidableEq

/-- The settings fields of a stored settings document. -/
def Setting.toData (s : Setting) : SettingsData :=
  { calendarName := s.calendarName, dailyHours := s.dailyHours,
    services := s.services, holidays := s.holidays }

/-- A stored employee document (`employeeSchema`, src/server.js lines 407-415):
`firstName`, `color`, `dailyHours`, `holidays`, plus `_id` and the
`timestamps: true` fields. -/
structure Employee where
  _id : Nat
  firstName : String
  color : String
  dailyHours : List (String × DailyInterval)
  holidays : List Holiday
  createdAt : Nat
  updatedAt : Nat
deriving DecidableEq

/-- A stored appointment document (`appointmentSchema`, src/server.js lines
428-441): required `employeeId`, `title`, `customerName`, `startHour`,
`startMinute`, `durationMinutes`, `date`; defaulted `customerPhone`,
`customerEmail`, `serviceId`; plus `_id` and the timestamp fields. -/
structure Appointment where
  _id : Nat
  employeeId : String
  title : String
  customerName : String
  customerPhone : String
  customerEmail : String
  startHour : Int
  startMinute : Int
  durationMinutes : Int
  date : String
  serviceId : Option String
  createdAt : Nat
  updatedAt : Nat
deriving DecidableEq

/-- A JSON request body for the appointment routes: every field may be absent. -/
structure AppointmentBody where
  employeeId : Option String := none
  title : Option String := none
  customerName : Option String := none
  customerPhone : Option String := none
  customerEmail : Option String := none
  startHour : Option Int := none
  startMinute : Option Int := none
  durationMinutes : Option Int := none
  date : Option String := none
  serviceId : Option String := none
deriving DecidableEq

/-- A JSON request body for the employee routes. -/
structure EmployeeBody where
  firstName : Option String := none
  color : Option String := none
  dailyHours : Option (List (String × DailyInterval)) := none
  holidays : Option (List Holiday) := none
deriving DecidableEq

/-- A JSON request body for POST /api/settings. -/
structure SettingsBody where
  calendarName : Option String := none
  dailyHours : Option (List (String × DailyInterval)) := none
  services : Option (List Service) := none
  holidays : Option (List Holiday) := none
deriving DecidableEq

/-- The whole database reachable from the route handlers: the three
collections, plus a counter modelling Mongo's `ObjectId` generation. -/
structure ServerState where
  employees : List Employee
  appointments : List Appointment
  settings : List Setting
  nextId : Nat
deriving DecidableEq

/-- `ObjectId.toString()`: the id as a 24-character lowercase-hex string. -/
def objectIdToString (n : Nat) : String :=
  let ds := Nat.toDigits 16 n
  String.mk (List.replicate (24 - ds.length) '0' ++ ds)

/-- The structured errors the appointment/employee routes can answer with:
a Mongoose validation error (listing the failing paths, HTTP 400) or a
missing document (HTTP 404).  The source has no other rejection kinds. -/
inductive ApiError where
  | validationFailed (paths : List String)
  | notFound
deriving DecidableEq

/-- The accept/reject outcome of a handler result: `none` means accepted,
`some e` means rejected with `e`. -/
def decisionOf {α : Type} (r : Except ApiError α) : Option ApiError :=
  match r with
  | Except.ok _ => none
  | Except.error e => some e

/-- Mongoose `required: true` on a `String` path: present and non-empty. -/
def requiredString (o : Option String) : Bool :=
  match o with
  | some s => !(s == "")
  | none => false

/-- The required paths of `appointmentSchema` that fail on a body (after the
handler has copied `customerName` into `title`). -/
def appointmentMissingPaths (b : AppointmentBody) : List String :=
  (if requiredString b.employeeId then [] else ["employeeId"]) ++
  (if requiredString b.title then [] else ["title"]) ++
  (if requiredString b.customerName then [] else ["customerName"]) ++
  (if b.startHour.isSome then [] else ["startHour"]) ++
  (if b.startMinute.isSome then [] else ["startMinute"]) ++
  (if b.durationMinutes.isSome then [] else ["durationMinutes"]) ++
  (if requiredString b.date then [] else ["date"])

/-- `new Appointment(data)` for a body that passed validation: schema defaults
for the optional paths, a fresh `_id`, and `timestamps: true`. -/
def buildAppointment (oid now : Nat) (d : AppointmentBody) : Appointment :=
  { _id := oid
    employeeId := d.employeeId.getD ""
    title := d.title.getD ""
    customerName := d.customerName.getD ""
    customerPhone := d.customerPhone.getD ""
    customerEmail := d.customerEmail.getD ""
    startHour := d.startHour.getD 0
    startMinute := d.startMinute.getD 0
    durationMinutes := d.durationMinutes.getD 0
    date := d.date.getD ""
    serviceId := d.serviceId
    createdAt := now
    updatedAt := now }

/-- The appointment JSON answered to the frontend: `apt.toObject()` (which
keeps `_id`) plus `id := _id.toString()`. -/
structure AppointmentResponse where
  _id : Nat
  id : String
  employeeId : String
  title : String
  customerName : String
  customerPhone : String
  customerEmail : String
  startHour : Int
  startMinute : Int
  durationMinutes : Int
  date : String
  serviceId : Option String
  createdAt : Nat
  updatedAt : Nat
deriving DecidableEq

/-- `aptObj = apt.toObject(); aptObj.id = aptObj._id.toString()`. -/
def Appointment.toResponse (a : Appointment) : AppointmentResponse :=
  { _id := a._id
    id := objectIdToString a._id
    employeeId := a.employeeId
    title := a.title
    customerName := a.customerName
    customerPhone := a.customerPhone
    customerEmail := a.customerEmail
    startHour := a.startHour
    startMinute := a.startMinute
    durationMinutes := a.durationMinutes
    date := a.date
    serviceId := a.serviceId
    createdAt := a.createdAt
    updatedAt := a.updatedAt }

/-- The employee JSON answered to the frontend: `emp.toObject()` plus
`id := _id.toString()`. -/
structure EmployeeResponse where
  _id : Nat
  id : String
  firstName : String
  color : String
  dailyHours : List (String × DailyInterval)
  holidays : List Holiday
  createdAt : Nat
  updatedAt : Nat
deriving DecidableEq

/-- `empObj = emp.toObject(); empObj.id = empObj._id.toString()`. -/
def Employee.toResponse (e : Employee) : EmployeeResponse :=
  { _id := e._id
    id := objectIdToString e._id
    firstName := e.firstName
    color := e.color
    dailyHours := e.dailyHours
    holidays := e.holidays
    createdAt := e.createdAt
    updatedAt := e.updatedAt }

/-- The save step of POST /api/appointments once `title` has been copied from
`customerName`: validate the required paths, then persist and answer the
aliased object, or answer 400. -/
def postAppointmentsValidated (now : Nat) (st : ServerState) (d : AppointmentBody) :
    Except ApiError AppointmentResponse × ServerState :=
  match appointmentMissingPaths d with
  | [] =>
    (Except.ok (buildAppointment st.nextId now d).toResponse,
     { st with appointments := st.appointments ++ [buildAppointment st.nextId now d]
               nextId := st.nextId + 1 })
  | ps => (Except.error (ApiError.validationFailed ps), st)

/-- POST /api/appointments (src/server.js lines 622-638):
`appointmentData.title = appointmentData.customerName`, then
`new Appointment(appointmentData).save()`. -/
def postAppointments (now : Nat) (st : ServerState) (body : AppointmentBody) :
    Except ApiError AppointmentResponse × ServerState :=
  postAppointmentsValidated now st { body with title := body.customerName }

/-- Paths of an update body that fail Mongoose's update validators
(`runValidators: true` checks only the paths being set): a required `String`
path set to the empty string. -/
def appointmentUpdateInvalidPaths (d : AppointmentBody) : List String :=
  (if d.employeeId == some "" then ["employeeId"] else []) ++
  (if d.title == some "" then ["title"] else []) ++
  (if d.customerName == some "" then ["customerName"] else []) ++
  (if d.date == some "" then ["date"] else [])

/-- `findByIdAndUpdate` field merge: every path present in the body replaces
the stored one (absent paths, stripped as `undefined`, stay), and
`timestamps: true` refreshes `updatedAt`. -/
def mergeAppointment (a : Appointment) (d : AppointmentBody) (now : Nat) : Appointment :=
  { a with
    employeeId := d.employeeId.getD a.employeeId
    title := d.title.getD a.title
    customerName := d.customerName.getD a.customerName
    customerPhone := d.customerPhone.getD a.customerPhone
    customerEmail := d.customerEmail.getD a.customerEmail
    startHour := d.startHour.getD a.startHour
    startMinute := d.startMinute.getD a.startMinute
    durationMinutes := d.durationMinutes.getD a.durationMinutes
    date := d.date.getD a.date
    serviceId := match d.serviceId with
      | some s => some s
      | none => a.serviceId
    updatedAt := now }

/-- The update step of PUT /api/appointments/:id once `title` has been copied
from `customerName`: run the update validators, look the document up by id,
merge and answer the aliased object, or answer 400 / 404. -/
def putAppointmentsValidated (now : Nat) (st : ServerState) (id : String)
    (d : AppointmentBody) : Except ApiError AppointmentResponse × ServerState :=
  match appointmentUpdateInvalidPaths d with
  | [] =>
    match st.appointments.find? (fun a => objectIdToString a._id == id) with
    | none => (Except.error ApiError.notFound, st)
    | some a =>
      (Except.ok (mergeAppointment a d now).toResponse,
       { st with appointments :=
           st.appointments.map (fun x => if x._id == a._id then mergeAppointment a d now else x) })
  | ps => (Except.error (ApiError.validationFailed ps), st)

/-- PUT /api/appointments/:id (src/server.js lines 641-659):
`appointmentData.title = appointmentData.customerName`, then
`Appointment.findByIdAndUpdate(id, appointmentData, runValidators)`. -/
def putAppointments (now : Nat) (st : ServerState) (id : String) (body : AppointmentBody) :
    Except ApiError AppointmentResponse × ServerState :=
  putAppointmentsValidated now st id { body with title := body.customerName }

/-- GET /api/appointments (src/server.js lines 606-619): the handler receives
the query string (`employeeId`, `date`) but never reads it — it answers all
stored appointments, `_id` aliased into `id`. -/
def getAppointments (employeeId date : Option String) (st : ServerState) :
    List AppointmentResponse :=
  st.appointments.map Appointment.toResponse

/-- DELETE /api/appointments/:id: `findByIdAndDelete`, 404 when absent. -/
def deleteAppointments (st : ServerState) (id : String) :
    Except ApiError Unit × ServerState :=
  match st.appointments.find? (fun a => objectIdToString a._id == id) with
  | none => (Except.error ApiError.notFound, st)
  | some _ =>
    (Except.ok (),
     { st with appointments :=
         st.appointments.filter (fun a => !(objectIdToString a._id == id)) })

/-- The required paths of `employeeSchema` that fail on a body. -/
def employeeMissingPaths (b : EmployeeBody) : List String :=
  (if requiredString b.firstName then [] else ["firstName"]) ++
  (if requiredString b.color then [] else ["color"])

/-- `new Employee(firstName, color, dailyHours: empty, holidays: empty)` as in
POST /api/employees: the handler destructures only `firstName` and `color`. -/
def buildEmployee (oid now : Nat) (b : EmployeeBody) : Employee :=
  { _id := oid
    firstName := b.firstName.getD ""
    color := b.color.getD ""
    dailyHours := []
    holidays := []
    createdAt := now
    updatedAt := now }

/-- POST /api/employees (src/server.js lines 550-568). -/
def postEmployees (now : Nat) (st : ServerState) (b : EmployeeBody) :
    Except ApiError EmployeeResponse × ServerState :=
  match employeeMissingPaths b with
  | [] =>
    (Except.ok (buildEmployee st.nextId now b).toResponse,
     { st with employees := st.employees ++ [buildEmployee st.nextId now b]
               nextId := st.nextId + 1 })
  | ps => (Except.error (ApiError.validationFailed ps), st)

/-- Update-validator failures for an employee body. -/
def employeeUpdateInvalidPaths (b : EmployeeBody) : List String :=
  (if b.firstName == some "" then ["firstName"] else []) ++
  (if b.color == some "" then ["color"] else [])

/-- `findByIdAndUpdate` merge for an employee document. -/
def mergeEmployee (e : Employee) (b : EmployeeBody) (now : Nat) : Employee :=
  { e with
    firstName := b.firstName.getD e.firstName
    color := b.color.getD e.color
    dailyHours := b.dailyHours.getD e.dailyHours
    holidays := b.holidays.getD e.holidays
    updatedAt := now }

/-- PUT /api/employees/:id (src/server.js lines 571-586). -/
def putEmployees (now : Nat) (st : ServerState) (id : String) (b : EmployeeBody) :
    Except ApiError EmployeeResponse × ServerState :=
  match employeeUpdateInvalidPaths b with
  | [] =>
    match st.employees.find? (fun e => objectIdToString e._id == id) with
    | none => (Except.error ApiError.notFound, st)
    | some e =>
      (Except.ok (mergeEmployee e b now).toResponse,
       { st with employees :=
           st.employees.map (fun x => if x._id == e._id then mergeEmployee e b now else x) })
  | ps => (Except.error (ApiError.validationFailed ps), st)

/-- Insert an employee into a list sorted by ascending `createdAt` (stable). -/
def insertByCreatedAt (e : Employee) : List Employee → List Employee
  | [] => [e]
  | x :: xs =>
    if x.createdAt ≤ e.createdAt then x :: insertByCreatedAt e xs
    else e :: x :: xs

/-- Sort employees by ascending `createdAt`, modelling `.sort(createdAt: 1)`. -/
def sortByCreatedAt : List Employee → List Employee
  | [] => []
  | e :: es => insertByCreatedAt e (sortByCreatedAt es)

/-- GET /api/employees (src/server.js lines 534-547): `find().sort(createdAt)`
then `_id` aliased into `id`. -/
def getEmployees (st : ServerState) : List EmployeeResponse :=
  (sortByCreatedAt st.employees).map Employee.toResponse

/-- DELETE /api/employees/:id: `findByIdAndDelete`, 404 when absent. -/
def deleteEmployees (st : ServerState) (id : String) :
    Except ApiError Unit × ServerState :=
  match st.employees.find? (fun e => objectIdToString e._id == id) with
  | none => (Except.error ApiError.notFound, st)
  | some _ =>
    (Except.ok (),
     { st with employees :=
         st.employees.filter (fun e => !(objectIdToString e._id == id)) })

/-- GET /api/settings (src/server.js lines 498-512): `Setting.findOne()`; when
no document exists, create one from `DEFAULT_SETTINGS`, save it and answer it. -/
def getSettings (st : ServerState) : Setting × ServerState :=
  match st.settings.head? with
  | some s => (s, st)
  | none =>
    ({ _id := st.nextId
       calendarName := DEFAULT_SETTINGS.calendarName
       dailyHours := DEFAULT_SETTINGS.dailyHours
       services := DEFAULT_SETTINGS.services
       holidays := DEFAULT_SETTINGS.holidays },
     { st with
       settings :=
         [{ _id := st.nextId
            calendarName := DEFAULT_SETTINGS.calendarName
            dailyHours := DEFAULT_SETTINGS.dailyHours
            services := DEFAULT_SETTINGS.services
            holidays := DEFAULT_SETTINGS.holidays }]
       nextId := st.nextId + 1 })

/-- POST /api/settings (src/server.js lines 516-528):
`findOneAndUpdate(empty filter, body, upsert)` — set the provided fields on
the (first) existing document, or create one, filling absent fields with the
schema defaults. -/
def postSettings (st : ServerState) (b : SettingsBody) : Setting × ServerState :=
  match st.settings with
  | [] =>
    ({ _id := st.nextId
       calendarName := b.calendarName.getD DEFAULT_SETTINGS.calendarName
       dailyHours := b.dailyHours.getD DEFAULT_SETTINGS.dailyHours
       services := b.services.getD DEFAULT_SETTINGS.services
       holidays := b.holidays.getD DEFAULT_SETTINGS.holidays },
     { st with
       settings :=
         [{ _id := st.nextId
            calendarName := b.calendarName.getD DEFAULT_SETTINGS.calendarName
            dailyHours := b.dailyHours.getD DEFAULT_SETTINGS.dailyHours
            services := b.services.getD DEFAULT_SETTINGS.services
            holidays := b.holidays.getD DEFAULT_SETTINGS.holidays }]
       nextId := st.nextId + 1 })
  | s :: rest =>
    ({ s with
       calendarName := b.calendarName.getD s.calendarName
       dailyHours := b.dailyHours.getD s.dailyHours
       services := b.services.getD s.services
       holidays := b.holidays.getD s.holidays },
     { st with
       settings :=
         { s with
           calendarName := b.calendarName.getD s.calendarName
           dailyHours := b.dailyHours.getD s.dailyHours
           services := b.services.getD s.services
           holidays := b.holidays.getD s.holidays } :: rest })

/-- One API request, as far as it can change the database. -/
inductive Op where
  | getSettingsOp
  | postSettingsOp (b : SettingsBody)
  | postEmployeesOp (now : Nat) (b : EmployeeBody)
  | putEmployeesOp (now : Nat) (id : String) (b : EmployeeBody)
  | deleteEmployeesOp (id : String)
  | postAppointmentsOp (now : Nat) (b : AppointmentBody)
  | putAppointmentsOp (now : Nat) (id : String) (b : AppointmentBody)
  | deleteAppointmentsOp (id : String)
deriving DecidableEq

/-- The state transition of one request (the read-only routes
GET /api/employees and GET /api/appointments do not change the database). -/
def step (st : ServerState) : Op → ServerState
  | Op.getSettingsOp => (getSettings st).2
  | Op.postSettingsOp b => (postSettings st b).2
  | Op.postEmployeesOp now b => (postEmployees now st b).2
  | Op.putEmployeesOp now id b => (putEmployees now st id b).2
  | Op.deleteEmployeesOp id => (deleteEmployees st id).2
  | Op.postAppointmentsOp now b => (postAppointments now st b).2
  | Op.putAppointmentsOp now id b => (putAppointments now st id b).2
  | Op.deleteAppointmentsOp id => (deleteAppointments st id).2

/-- Run a request sequence from a state. -/
def run (ops : List Op) (st : ServerState) : ServerState :=
  ops.foldl step st

/-- The empty database a fresh deployment starts from. -/
def initialState : ServerState :=
  { employees := [], appointments := [], settings := [], nextId := 1 }

/-! ### Specification-side definitions

Everything below whose name starts with `spec` formalises wording of the
specification (overlap of half-open intervals, holiday membership, the
availability fallback chain); these definitions come from the spec, not from
the source, and are used to compare the two. -/

/-- Start of an appointment in minutes from midnight. -/
def Appointment.startMin (a : Appointment) : Int :=
  a.startHour * 60 + a.startMinute

/-- End of an appointment in minutes from midnight (start + duration). -/
def Appointment.endMin (a : Appointment) : Int :=
  a.startMin + a.durationMinutes

/-- Spec overlap test: intervals `[s1, e1)` and `[s2, e2)` overlap iff
`s1 < e2` and `s2 < e1` (touching endpoints do not conflict). -/
def specOverlap (s1 e1 s2 e2 : Int) : Bool :=
  s1 < e2 && s2 < e1

/-- Two appointments conflict per the spec: same employee, same date, and
overlapping `[start, end)` intervals. -/
def specConflicts (a b : Appointment) : Bool :=
  a.employeeId == b.employeeId && a.date == b.date &&
    specOverlap a.startMin a.endMin b.startMin b.endMin

/-- Whether some pair of stored appointments conflicts per the spec. -/
def specHasOverlapPair : List Appointment → Bool
  | [] => false
  | a :: rest => rest.any (fun b => specConflicts a b) || specHasOverlapPair rest

/-- Whether a proposed body conflicts with some stored appointment (the body
read as the appointment the handler would build from it). -/
def specBodyConflictsSome (st : ServerState) (b : AppointmentBody) : Bool :=
  st.appointments.any
    (fun a => specConflicts a (buildAppointment 0 0 { b with title := b.customerName }))

/-- Lexicographic order on character lists (ISO date strings compare
correctly this way). -/
def charListLe : List Char → List Char → Bool
  | [], _ => true
  | _ :: _, [] => false
  | a :: as, b :: bs => if a = b then charListLe as bs else decide (a < b)

/-- `a ≤ b` on strings, kernel-computable. -/
def strLe (a b : String) : Bool :=
  charListLe a.data b.data

/-- Spec holiday membership: the date falls within some holiday interval
`[start, end]` of the list. -/
def specDateInHolidays (hs : List Holiday) (date : String) : Bool :=
  hs.any (fun h => strLe h.start date && strLe date h.endD)

/-- The enabled interval of a per-weekday table, if any. -/
def specEnabledInterval (tbl : List (String × DailyInterval)) (weekday : String) :
    Option (Int × Int) :=
  match List.lookup weekday tbl with
  | some iv => if iv.enabled then some (iv.start, iv.endH) else none
  | none => none

/-- Spec effective availability interval for an employee on a date falling on
a weekday: none on a (global or employee) holiday; else the employee's
per-weekday interval if enabled; else the global default if enabled. -/
def specEffectiveInterval (s : Setting) (emp : Employee) (date weekday : String) :
    Option (Int × Int) :=
  if specDateInHolidays s.holidays date || specDateInHolidays emp.holidays date then
    none
  else
    match List.lookup weekday emp.dailyHours with
    | some iv =>
      if iv.enabled then some (iv.start, iv.endH)
      else specEnabledInterval s.dailyHours weekday
    | none => specEnabledInterval s.dailyHours weekday

/-- The spec acceptance condition of claim C2: an effective availability
interval exists and the proposed `[start, end)` lies within it (hours of the
interval scaled to minutes). -/
def specC2Accepts (s : Setting) (emp : Employee) (weekday : String)
    (b : AppointmentBody) : Bool :=
  match specEffectiveInterval s emp (b.date.getD "") weekday with
  | none => false
  | some (lo, hi) =>
    lo * 60 ≤ (b.startHour.getD 0) * 60 + b.startMinute.getD 0 &&
      (b.startHour.getD 0) * 60 + b.startMinute.getD 0 + b.durationMinutes.getD 0 ≤
        hi * 60

/-- The spec time-range condition of claim C5: positive duration and an end
time no later than 24:00 of the same date. -/
def specValidTimeRange (b : AppointmentBody) : Bool :=
  0 < b.durationMinutes.getD 0 &&
    (b.startHour.getD 0) * 60 + b.startMinute.getD 0 + b.durationMinutes.getD 0 ≤
      24 * 60

/-- The global-holiday condition of claim C3, against the stored settings
document (as `findOne` would answer it). -/
def specGlobalHolidayBlocked (st : ServerState) (b : AppointmentBody) : Bool :=
  match st.settings.head? with
  | some s => specDateInHolidays s.holidays (b.date.getD "")
  | none => false

/-! ### Concrete fixtures for the counterexamples and witnesses -/

/-- A stored employee, Mongo id 1, no per-weekday overrides, no holidays. -/
def empA : Employee :=
  { _id := 1, firstName := "Max", color := "#ff0000", dailyHours := [],
    holidays := [], createdAt := 0, updatedAt := 0 }

/-- A stored settings document holding the defaults (Mongo id 2). -/
def setA : Setting :=
  { _id := 2, calendarName := DEFAULT_SETTINGS.calendarName,
    dailyHours := DEFAULT_SETTINGS.dailyHours,
    services := DEFAULT_SETTINGS.services, holidays := [] }

/-- The same settings document with 2025-01-06 (a Monday) as a global holiday. -/
def setHol : Setting :=
  { setA with holidays := [{ start := "2025-01-06", endD := "2025-01-06" }] }

/-- A stored appointment: employee e1, Monday 2025-01-06, 10:00-11:00. -/
def aptA : Appointment :=
  { _id := 3, employeeId := "e1", title := "Kunde A", customerName := "Kunde A",
    customerPhone := "", customerEmail := "", startHour := 10, startMinute := 0,
    durationMinutes := 60, date := "2025-01-06", serviceId := none,
    createdAt := 0, updatedAt := 0 }

/-- A stored appointment of another employee on another date. -/
def aptB : Appointment :=
  { aptA with _id := 4, employeeId := "e2", date := "2025-02-01" }

/-- A database holding `empA`, `aptA` and the default settings. -/
def stA : ServerState :=
  { employees := [empA], appointments := [aptA], settings := [setA], nextId := 10 }

/-- `stA` with the global holiday on 2025-01-06. -/
def stHol : ServerState :=
  { stA with settings := [setHol] }

/-- `stA` with appointments of two employees on two dates. -/
def stC9 : ServerState :=
  { stA with appointments := [aptA, aptB] }

/-- A proposed appointment e1, 2025-01-06, 10:30-11:30 — overlapping `aptA`. -/
def bodyOverlap : AppointmentBody :=
  { employeeId := some "e1", customerName := some "Kunde B",
    startHour := some 10, startMinute := some 30, durationMinutes := some 60,
    date := some "2025-01-06" }

/-- A proposed appointment 20:00-21:00 — outside every default working-hours
interval (all default intervals are 9-18). -/
def bodyOutside : AppointmentBody :=
  { bodyOverlap with startHour := some 20, startMinute := some 0 }

/-- A proposed appointment 14:00-15:00 on the global holiday 2025-01-06. -/
def bodyHoliday : AppointmentBody :=
  { bodyOverlap with startHour := some 14, startMinute := some 0 }

/-- A proposed appointment whose `employeeId` matches no stored employee. -/
def bodyGhost : AppointmentBody :=
  { bodyOverlap with
      employeeId := some "ffffffffffffffffffffffff", date := some "2025-01-07" }

/-- A proposed appointment with duration 0. -/
def bodyZeroDuration : AppointmentBody :=
  { bodyOverlap with durationMinutes := some 0, date := some "2025-01-07" }

/-- A proposed appointment 23:30 + 120 minutes — its end crosses midnight. -/
def bodyPastMidnight : AppointmentBody :=
  { bodyOverlap with
      startHour := some 23, startMinute := some 30,
      durationMinutes := some 120, date := some "2025-01-07" }

/-- An update body touching only the time fields (10:15, 60 minutes). -/
def bodyTimeOnly : AppointmentBody :=
  { startHour := some 10, startMinute := some 15, durationMinutes := some 60 }

/-! ### Helper lemmas about the handlers -/

/-- A body all of whose required paths pass makes POST /api/appointments
answer 201 with the built appointment. -/
theorem postAppointments_fst (now : Nat) (st : ServerState) (b : AppointmentBody)
    (hreq : appointmentMissingPaths { b with title := b.customerName } = []) :
    (postAppointments now st b).1 =
      Except.ok
        (buildAppointment st.nextId now { b with title := b.customerName }).toResponse := by
  unfold postAppointments postAppointmentsValidated
  rw [hreq]

/-- A body all of whose required paths pass makes POST /api/appointments append
the built appointment to the store. -/
theorem postAppointments_snd (now : Nat) (st : ServerState) (b : AppointmentBody)
    (hreq : appointmentMissingPaths { b with title := b.customerName } = []) :
    (postAppointments now st b).2.appointments =
      st.appointments ++ [buildAppointment st.nextId now { b with title := b.customerName }] := by
  unfold postAppointments postAppointmentsValidated
  rw [hreq]

/-- When the update validators pass and the id is found, PUT
/api/appointments/:id answers 200 with the merged appointment. -/
theorem putAppointments_fst_found (now : Nat) (st : ServerState) (id : String)
    (b : AppointmentBody) (a : Appointment)
    (hval : appointmentUpdateInvalidPaths { b with title := b.customerName } = [])
    (hf : st.appointments.find? (fun x => objectIdToString x._id == id) = some a) :
    (putAppointments now st id b).1 =
      Except.ok (mergeAppointment a { b with title := b.customerName } now).toResponse := by
  unfold putAppointments putAppointmentsValidated
  rw [hval, hf]

/-- `specConflicts` reads no id or timestamp, so the id and clock passed to
`buildAppointment` are irrelevant to it. -/
theorem specConflicts_buildAppointment (a : Appointment) (oid now : Nat)
    (d : AppointmentBody) :
    specConflicts a (buildAppointment oid now d) =
      specConflicts a (buildAppointment 0 0 d) := rfl

/-- Appending one appointment: the store holds an overlapping pair iff it
already held one or the appended appointment conflicts with a stored one. -/
theorem specHasOverlapPair_append (l : List Appointment) (x : Appointment) :
    specHasOverlapPair (l ++ [x]) =
      (specHasOverlapPair l || l.any (fun a => specConflicts a x)) := by
  induction l with
  | nil => simp [specHasOverlapPair]
  | cons a rest ih =>
    simp only [List.cons_append, specHasOverlapPair, List.append_eq, List.any_append,
      List.any_cons, List.any_nil, Bool.or_false, ih]
    cases rest.any (fun b => specConflicts a b) <;> cases specConflicts a x <;>
      cases specHasOverlapPair rest <;> cases rest.any (fun a2 => specConflicts a2 x) <;>
      rfl

/-! ### Counterexamples against the claims the code does not implement -/

/-- C1 counterexample: the proposed appointment e1, 2025-01-06, 10:30-11:30
overlaps the stored 10:00-11:00 appointment of the same employee and date, yet
POST /api/appointments accepts it (no `ConflictingAppointment` rejection), and
the store afterwards holds two overlapping appointments. -/
theorem C1_counterexample :
    decisionOf (postAppointments 5 stA bodyOverlap).1 = none ∧
    specBodyConflictsSome stA bodyOverlap = true ∧
    specHasOverlapPair (postAppointments 5 stA bodyOverlap).2.appointments = true := by
  decide

/-- C2 counterexample: 2025-01-06 is a Monday, the effective availability
interval of `empA` under the stored default settings is 9-18, yet the proposed
20:00-21:00 appointment is accepted rather than rejected with
`OutsideWorkingHours`. -/
theorem C2_counterexample :
    decisionOf (postAppointments 0 stA bodyOutside).1 = none ∧
    specC2Accepts setA empA "Mo" bodyOutside = false := by
  decide

/-- C3 counterexample: 2025-01-06 is in the global holiday list of the stored
settings, yet the proposed appointment on that date is accepted rather than
rejected with `EmployeeUnavailable`. -/
theorem C3_counterexample :
    decisionOf (postAppointments 0 stHol bodyHoliday).1 = none ∧
    specGlobalHolidayBlocked stHol bodyHoliday = true := by
  decide

/-- C4 counterexample: the proposed `employeeId` matches no stored employee
(the only stored employee has id `objectIdToString 1`), yet the create is
accepted rather than rejected with `UnknownEmployee`. -/
theorem C4_counterexample :
    decisionOf (postAppointments 0 stA bodyGhost).1 = none ∧
    stA.employees.all
      (fun e => !(objectIdToString e._id == bodyGhost.employeeId.getD "")) = true := by
  decide

/-- C5 counterexample: a duration of 0 minutes and a 23:30 + 120-minute
appointment crossing midnight are both accepted rather than rejected with
`InvalidTimeRange`. -/
theorem C5_counterexample :
    decisionOf (postAppointments 0 stA bodyZeroDuration).1 = none ∧
    specValidTimeRange bodyZeroDuration = false ∧
    decisionOf (postAppointments 0 stA bodyPastMidnight).1 = none ∧
    specValidTimeRange bodyPastMidnight = false := by
  decide

/-- C9 counterexample: querying employee e1 and date 2025-01-06 returns a list
that also contains the stored appointment of employee e2 on 2025-02-01 — the
query parameters are ignored, so appointments of other employees and dates are
returned. -/
theorem C9_counterexample :
    (getAppointments (some "e1") (some "2025-01-06") stC9).any
      (fun r => !(r.employeeId == "e1" && r.date == "2025-01-06")) = true := by
  decide

/-! ### The claims, as far as they hold of the code -/

/-- C1 (amended): the appointment store admits overlapping appointments — a
create whose `[start, end)` interval overlaps a stored appointment of the same
employee and date is accepted whenever its required fields are present (no
`ConflictingAppointment` rejection exists in the code), and the store
afterwards holds two appointments with overlapping intervals. -/
theorem C1_overlap_accepted (now : Nat) (st : ServerState) (b : AppointmentBody)
    (hreq : appointmentMissingPaths { b with title := b.customerName } = [])
    (hover : specBodyConflictsSome st b = true) :
    decisionOf (postAppointments now st b).1 = none ∧
    specHasOverlapPair (postAppointments now st b).2.appointments = true := by
  refine ⟨by rw [postAppointments_fst now st b hreq]; rfl, ?_⟩
  rw [postAppointments_snd now st b hreq, specHasOverlapPair_append]
  have h2 : st.appointments.any
      (fun a =>
        specConflicts a
          (buildAppointment st.nextId now { b with title := b.customerName })) = true :=
    hover
  rw [h2, Bool.or_true]

/-- C1 witness: the concrete overlapping create of the counterexample, through
`C1_overlap_accepted`. -/
theorem C1_witness :
    decisionOf (postAppointments 6 stA bodyOverlap).1 = none ∧
    specHasOverlapPair (postAppointments 6 stA bodyOverlap).2.appointments = true :=
  C1_overlap_accepted 6 stA bodyOverlap (by decide) (by decide)

/-- C2 (amended): appointment creation never consults availability — even when
the spec-side effective-availability condition (holiday > per-weekday override
> global default, containment in the interval) rejects the proposal for any
settings document, employee and weekday, the create is accepted whenever its
required fields are present; no `OutsideWorkingHours` rejection exists. -/
theorem C2_no_availability_check (now : Nat) (st : ServerState) (s : Setting)
    (emp : Employee) (weekday : String) (b : AppointmentBody)
    (hreq : appointmentMissingPaths { b with title := b.customerName } = [])
    (hout : specC2Accepts s emp weekday b = false) :
    decisionOf (postAppointments now st b).1 = none := by
  rw [postAppointments_fst now st b hreq]; rfl

/-- C2 witness: the concrete 20:00-21:00 proposal outside the default 9-18
interval, through `C2_no_availability_check`. -/
theorem C2_witness : decisionOf (postAppointments 1 stA bodyOutside).1 = none :=
  C2_no_availability_check 1 stA setA empA "Mo" bodyOutside (by decide) (by decide)

/-- C3 (amended): appointment creation never consults the holiday lists — a
proposal whose date lies in the stored global holiday list, or in any
employee's holiday list, is accepted whenever its required fields are present;
no `EmployeeUnavailable` rejection exists. -/
theorem C3_holiday_accepted (now : Nat) (st : ServerState) (emp : Employee)
    (b : AppointmentBody)
    (hreq : appointmentMissingPaths { b with title := b.customerName } = [])
    (hhol : specGlobalHolidayBlocked st b = true ∨
      specDateInHolidays emp.holidays (b.date.getD "") = true) :
    decisionOf (postAppointments now st b).1 = none := by
  rw [postAppointments_fst now st b hreq]; rfl

/-- C3 witness: the concrete proposal on the global holiday 2025-01-06,
through `C3_holiday_accepted`. -/
theorem C3_witness : decisionOf (postAppointments 1 stHol bodyHoliday).1 = none :=
  C3_holiday_accepted 1 stHol empA bodyHoliday (by decide) (Or.inl (by decide))

/-- C4 (amended): neither POST /api/appointments nor PUT /api/appointments/:id
checks that the referenced employee exists — a mutation whose `employeeId`
matches no stored employee is accepted (create: required fields present;
update: validators pass and the appointment id is found); no `UnknownEmployee`
rejection exists. -/
theorem C4_no_employee_existence_check :
    (∀ (now : Nat) (st : ServerState) (b : AppointmentBody),
      appointmentMissingPaths { b with title := b.customerName } = [] →
      st.employees.all
        (fun e => !(objectIdToString e._id == b.employeeId.getD "")) = true →
      decisionOf (postAppointments now st b).1 = none) ∧
    (∀ (now : Nat) (st : ServerState) (id : String) (b : AppointmentBody)
      (a : Appointment),
      appointmentUpdateInvalidPaths { b with title := b.customerName } = [] →
      st.appointments.find? (fun x => objectIdToString x._id == id) = some a →
      st.employees.all
        (fun e => !(objectIdToString e._id == b.employeeId.getD "")) = true →
      decisionOf (putAppointments now st id b).1 = none) := by
  constructor
  · intro now st b hreq hemp
    rw [postAppointments_fst now st b hreq]; rfl
  · intro now st id b a hval hf hemp
    rw [putAppointments_fst_found now st id b a hval hf]; rfl

/-- C4 witness: the concrete ghost `employeeId` is accepted on create and on
update, through `C4_no_employee_existence_check`. -/
theorem C4_witness :
    decisionOf (postAppointments 1 stA bodyGhost).1 = none ∧
    decisionOf (putAppointments 7 stA (objectIdToString 3) bodyGhost).1 = none :=
  ⟨C4_no_employee_existence_check.1 1 stA bodyGhost (by decide) (by decide),
   C4_no_employee_existence_check.2 7 stA (objectIdToString 3) bodyGhost aptA
     (by decide) (by decide) (by decide)⟩

/-- C5 (amended): appointment creation requires `durationMinutes` to be
present but never checks its value — proposals violating the spec's time-range
condition (positive duration, end no later than 24:00) are accepted whenever
their required fields are present; no `InvalidTimeRange` rejection exists. -/
theorem C5_no_time_range_check (now : Nat) (st : ServerState) (b : AppointmentBody)
    (hreq : appointmentMissingPaths { b with title := b.customerName } = [])
    (hbad : specValidTimeRange b = false) :
    decisionOf (postAppointments now st b).1 = none := by
  rw [postAppointments_fst now st b hreq]; rfl

/-- C5 witness: the concrete duration-0 proposal, through
`C5_no_time_range_check`. -/
theorem C5_witness : decisionOf (postAppointments 1 stA bodyZeroDuration).1 = none :=
  C5_no_time_range_check 1 stA bodyZeroDuration (by decide) (by decide)

/-- C6: updating an existing appointment's own time range always succeeds and
never reports a self-conflict — the update answers 200 with exactly the new
start hour, start minute and duration (the code performs no conflict check on
update at all, so in particular none against the appointment itself). -/
theorem C6_update_own_time_range (now : Nat) (st : ServerState) (aid : Nat)
    (sh sm dm : Int)
    (hmem : (st.appointments.find?
        (fun x => objectIdToString x._id == objectIdToString aid)).isSome = true) :
    ((putAppointments now st (objectIdToString aid)
        { startHour := some sh, startMinute := some sm,
          durationMinutes := some dm }).1).map
      (fun r => (r.startHour, r.startMinute, r.durationMinutes)) =
      Except.ok (sh, sm, dm) := by
  cases hf : st.appointments.find?
      (fun x => objectIdToString x._id == objectIdToString aid) with
  | none => rw [hf] at hmem; exact absurd hmem (by simp)
  | some a =>
    rw [putAppointments_fst_found now st (objectIdToString aid)
      { startHour := some sh, startMinute := some sm, durationMinutes := some dm }
      a rfl hf]
    rfl

/-- C6 witness: updating the stored 10:00-11:00 appointment to 10:15-11:15
with no other appointment changed, through `C6_update_own_time_range`. -/
theorem C6_witness :
    ((putAppointments 9 stA (objectIdToString 3) bodyTimeOnly).1).map
      (fun r => (r.startHour, r.startMinute, r.durationMinutes)) =
      Except.ok ((10 : Int), (15 : Int), (60 : Int)) :=
  C6_update_own_time_range 9 stA 3 10 15 60 (by decide)

/-- C7: the accept/reject decision of the appointment mutation routes is a
deterministic pure function of its inputs — for POST the decision does not
depend on the clock or on the stored state at all, and for PUT two calls with
identical store, id and body at different clock values decide identically; no
time-of-day dependence or randomness. -/
theorem C7_evaluation_deterministic (n1 n2 : Nat) (sa sb sc : ServerState)
    (id : String) (b : AppointmentBody) :
    decisionOf (postAppointments n1 sa b).1 = decisionOf (postAppointments n2 sb b).1 ∧
    decisionOf (putAppointments n1 sc id b).1 =
      decisionOf (putAppointments n2 sc id b).1 := by
  constructor
  · unfold postAppointments postAppointmentsValidated
    cases h : appointmentMissingPaths { b with title := b.customerName } <;>
      simp [decisionOf]
  · unfold putAppointments putAppointmentsValidated
    cases h : appointmentUpdateInvalidPaths { b with title := b.customerName } with
    | nil =>
      cases h2 : sc.appointments.find? (fun a => objectIdToString a._id == id) <;>
        simp [decisionOf]
    | cons p ps => simp [decisionOf]

/-- C9 (amended): GET /api/appointments ignores the `employeeId` and `date`
query parameters — every stored appointment is in the answer (in particular
every appointment of the requested employee and date, with no truncation), and
the answer has exactly one entry per stored appointment. -/
theorem C9_returns_everything (employeeId date : Option String) (st : ServerState)
    (a : Appointment) (hmem : a ∈ st.appointments) :
    a.toResponse ∈ getAppointments employeeId date st ∧
    (getAppointments employeeId date st).length = st.appointments.length := by
  constructor
  · exact List.mem_map_of_mem Appointment.toResponse hmem
  · simp [getAppointments]

/-- C9 witness: the stored appointment of e1 on 2025-01-06 is in the answer of
the corresponding query, through `C9_returns_everything`. -/
theorem C9_witness :
    aptA.toResponse ∈ getAppointments (some "e1") (some "2025-01-06") stC9 ∧
    (getAppointments (some "e1") (some "2025-01-06") stC9).length =
      stC9.appointments.length :=
  C9_returns_everything (some "e1") (some "2025-01-06") stC9 aptA (by decide)

/-! ### Settings: singleton invariant and lazy default creation (C8) -/

/-- POST /api/appointments never touches the settings collection. -/
theorem postAppointments_settings (now : Nat) (st : ServerState) (b : AppointmentBody) :
    (postAppointments now st b).2.settings = st.settings := by
  unfold postAppointments postAppointmentsValidated
  cases h : appointmentMissingPaths { b with title := b.customerName } <;> rfl

/-- PUT /api/appointments/:id never touches the settings collection. -/
theorem putAppointments_settings (now : Nat) (st : ServerState) (id : String)
    (b : AppointmentBody) :
    (putAppointments now st id b).2.settings = st.settings := by
  unfold putAppointments putAppointmentsValidated
  cases h : appointmentUpdateInvalidPaths { b with title := b.customerName } with
  | nil =>
    cases h2 : st.appointments.find? (fun a => objectIdToString a._id == id) <;> rfl
  | cons p ps => rfl

/-- DELETE /api/appointments/:id never touches the settings collection. -/
theorem deleteAppointments_settings (st : ServerState) (id : String) :
    (deleteAppointments st id).2.settings = st.settings := by
  unfold deleteAppointments
  cases h : st.appointments.find? (fun a => objectIdToString a._id == id) <;> rfl

/-- POST /api/employees never touches the settings collection. -/
theorem postEmployees_settings (now : Nat) (st : ServerState) (b : EmployeeBody) :
    (postEmployees now st b).2.settings = st.settings := by
  unfold postEmployees
  cases h : employeeMissingPaths b <;> rfl

/-- PUT /api/employees/:id never touches the settings collection. -/
theorem putEmployees_settings (now : Nat) (st : ServerState) (id : String)
    (b : EmployeeBody) :
    (putEmployees now st id b).2.settings = st.settings := by
  unfold putEmployees
  cases h : employeeUpdateInvalidPaths b with
  | nil =>
    cases h2 : st.employees.find? (fun e => objectIdToString e._id == id) <;> rfl
  | cons p ps => rfl

/-- DELETE /api/employees/:id never touches the settings collection. -/
theorem deleteEmployees_settings (st : ServerState) (id : String) :
    (deleteEmployees st id).2.settings = st.settings := by
  unfold deleteEmployees
  cases h : st.employees.find? (fun e => objectIdToString e._id == id) <;> rfl

/-- Every single request preserves "at most one settings document". -/
theorem step_settings_le (st : ServerState) (op : Op)
    (h : st.settings.length ≤ 1) : (step st op).settings.length ≤ 1 := by
  cases op with
  | getSettingsOp =>
    simp only [step]
    unfold getSettings
    cases hh : st.settings.head? with
    | some s => exact h
    | none => exact Nat.le_refl 1
  | postSettingsOp b =>
    simp only [step]
    unfold postSettings
    cases hs : st.settings with
    | nil => exact Nat.le_refl 1
    | cons s rest =>
      have hr : rest.length = 0 := by
        rw [hs] at h
        simp only [List.length_cons] at h
        omega
      show (_ :: rest).length ≤ 1
      simp [hr]
  | postEmployeesOp now b =>
    simp only [step, postEmployees_settings]
    exact h
  | putEmployeesOp now id b =>
    simp only [step, putEmployees_settings]
    exact h
  | deleteEmployeesOp id =>
    simp only [step, deleteEmployees_settings]
    exact h
  | postAppointmentsOp now b =>
    simp only [step, postAppointments_settings]
    exact h
  | putAppointmentsOp now id b =>
    simp only [step, putAppointments_settings]
    exact h
  | deleteAppointmentsOp id =>
    simp only [step, deleteAppointments_settings]
    exact h

/-- Any request sequence preserves "at most one settings document". -/
theorem run_settings_le (ops : List Op) (st : ServerState)
    (h : st.settings.length ≤ 1) : (run ops st).settings.length ≤ 1 := by
  induction ops generalizing st with
  | nil => exact h
  | cons op rest ih => exact ih (step st op) (step_settings_le st op h)

/-- C8: the settings document is a lazily created singleton — every state
reachable by API requests from the empty database holds at most one settings
document, and GET /api/settings on a database with none creates exactly one,
populated with the documented `DEFAULT_SETTINGS`, and answers it. -/
theorem C8_settings_singleton :
    (∀ ops : List Op, (run ops initialState).settings.length ≤ 1) ∧
    (∀ st : ServerState, st.settings = [] →
      (getSettings st).1.toData = DEFAULT_SETTINGS ∧
      (getSettings st).2.settings = [(getSettings st).1]) := by
  constructor
  · intro ops
    exact run_settings_le ops initialState (by decide)
  · intro st h
    unfold getSettings
    rw [h]
    exact ⟨rfl, rfl⟩

/-- C8 witness: the first GET /api/settings on the empty database creates and
answers the default settings document, through `C8_settings_singleton`. -/
theorem C8_witness :
    (getSettings initialState).1.toData = DEFAULT_SETTINGS ∧
    (getSettings initialState).2.settings = [(getSettings initialState).1] :=
  C8_settings_singleton.2 initialState rfl

/-! ### Identifier aliasing (C10) -/

/-- Membership after inserting into the createdAt-sorted list. -/
theorem mem_of_mem_insertByCreatedAt {e x : Employee} {l : List Employee}
    (h : x ∈ insertByCreatedAt e l) : x = e ∨ x ∈ l := by
  induction l with
  | nil => simpa [insertByCreatedAt] using h
  | cons a as ih =>
    simp only [insertByCreatedAt] at h
    by_cases hc : a.createdAt ≤ e.createdAt
    · rw [if_pos hc] at h
      rcases List.mem_cons.mp h with h1 | h1
      · exact Or.inr (List.mem_cons.mpr (Or.inl h1))
      · rcases ih h1 with h2 | h2
        · exact Or.inl h2
        · exact Or.inr (List.mem_cons.mpr (Or.inr h2))
    · rw [if_neg hc] at h
      rcases List.mem_cons.mp h with h1 | h1
      · exact Or.inl h1
      · exact Or.inr h1

/-- Sorting by createdAt returns only stored employees. -/
theorem mem_of_mem_sortByCreatedAt {x : Employee} {l : List Employee}
    (h : x ∈ sortByCreatedAt l) : x ∈ l := by
  induction l with
  | nil => simp [sortByCreatedAt] at h
  | cons a as ih =>
    simp only [sortByCreatedAt] at h
    rcases mem_of_mem_insertByCreatedAt h with h1 | h1
    · simp [h1]
    · exact List.mem_cons.mpr (Or.inr (ih h1))

/-- C10: every successful response of the employee and appointment list,
create and update routes carries an `id` field equal to the hex-string form of
the answered record's Mongo `_id` (`id = String(_id)`). -/
theorem C10_response_id_aliasing :
    (∀ (st : ServerState) (r : EmployeeResponse),
      r ∈ getEmployees st → r.id = objectIdToString r._id) ∧
    (∀ (employeeId date : Option String) (st : ServerState) (r : AppointmentResponse),
      r ∈ getAppointments employeeId date st → r.id = objectIdToString r._id) ∧
    (∀ (now : Nat) (st : ServerState) (b : EmployeeBody) (r : EmployeeResponse),
      (postEmployees now st b).1 = Except.ok r → r.id = objectIdToString r._id) ∧
    (∀ (now : Nat) (st : ServerState) (id : String) (b : EmployeeBody)
      (r : EmployeeResponse),
      (putEmployees now st id b).1 = Except.ok r → r.id = objectIdToString r._id) ∧
    (∀ (now : Nat) (st : ServerState) (b : AppointmentBody) (r : AppointmentResponse),
      (postAppointments now st b).1 = Except.ok r → r.id = objectIdToString r._id) ∧
    (∀ (now : Nat) (st : ServerState) (id : String) (b : AppointmentBody)
      (r : AppointmentResponse),
      (putAppointments now st id b).1 = Except.ok r → r.id = objectIdToString r._id) := by
  refine ⟨?_, ?_, ?_, ?_, ?_, ?_⟩
  · intro st r h
    unfold getEmployees at h
    rcases List.mem_map.mp h with ⟨e, he, rfl⟩
    rfl
  · intro employeeId date st r h
    unfold getAppointments at h
    rcases List.mem_map.mp h with ⟨a, ha, rfl⟩
    rfl
  · intro now st b r h
    unfold postEmployees at h
    split at h
    · simp at h
      subst h
      rfl
    · simp at h
  · intro now st id b r h
    unfold putEmployees at h
    split at h
    · split at h
      · simp at h
      · simp at h
        subst h
        rfl
    · simp at h
  · intro now st b r h
    unfold postAppointments postAppointmentsValidated at h
    split at h
    · simp at h
      subst h
      rfl
    · simp at h
  · intro now st id b r h
    unfold putAppointments putAppointmentsValidated at h
    split at h
    · split at h
      · simp at h
      · simp at h
        subst h
        rfl
    · simp at h

/-- C10 witness: the listed employee and appointment responses of the concrete
database alias their ids, through `C10_response_id_aliasing`. -/
theorem C10_witness :
    (Employee.toResponse empA).id = objectIdToString (Employee.toResponse empA)._id ∧
    (Appointment.toResponse aptA).id =
      objectIdToString (Appointment.toResponse aptA)._id :=
  ⟨C10_response_id_aliasing.1 stA (Employee.toResponse empA) (by decide),
   C10_response_id_aliasing.2.1 none none stA (Appointment.toResponse aptA) (by decide)⟩

end Kalender
